import Mathlib

/-!
Verification of the Lunar 22 marketing site's SEO/contact pipeline.

This file gives a shallow embedding of the pure computational core of the
repository (metadata merging and sanitizing, contact-form validation, the
in-memory rate limiter, sitemap/robots generation and validation, the JSON-LD
schema builder, and the HTTP route handlers' status/fallback logic) and proves
the claimed properties about it.

Modelling conventions:
* JS strings are Lean `String`s (claims speak of characters, so code points
  stand in for UTF-16 units; every string in play is ASCII).
* A JS value that may be `undefined` is an `Option`; JS `a || b` is modelled
  by helpers that treat `none` and `""` as falsy, JS `a ?? b` by `Option.or`.
* Stateful code (the rate limiter map) is explicit state passing.
* Host APIs that are not part of the repository (the WHATWG `new URL` parser,
  the file system) enter as explicit function parameters, so every theorem
  holds for an arbitrary such oracle.
-/

set_option maxRecDepth 8000

namespace Lunar22

/-- JS truthiness of an optional string: `undefined` and `""` are falsy. -/
def strTruthy : Option String → Bool
  | none => false
  | some s => s ≠ ""

/-- JS `a || b` where `a : string | undefined` and `b : string`. -/
def jsOrStr (a : Option String) (b : String) : String :=
  match a with
  | some s => if s = "" then b else s
  | none => b

/-- JS `a || b` where both operands are `string | undefined`. -/
def jsOrOpt (a b : Option String) : Option String :=
  if strTruthy a then a else b

/-!
## Data model (src/lib/seo/types.ts)

Runtime objects may be partial regardless of the TypeScript annotations, so
object sub-fields are `Option`s; a `none` models an absent key.
-/

/-- Open Graph object (`OpenGraphConfig` in src/lib/seo/types.ts); sub-fields
are optional to model runtime-partial objects flowing into the shallow merge. -/
structure OGData where
  title : Option String
  description : Option String
  image : Option String
  type : Option String
  siteName : Option String
  deriving Repr, DecidableEq

/-- Twitter Card object (`TwitterConfig` in src/lib/seo/types.ts). -/
structure TwData where
  card : Option String
  title : Option String
  description : Option String
  image : Option String
  site : Option String
  deriving Repr, DecidableEq

/-- Robots meta object (`RobotsConfig` in src/lib/seo/types.ts). -/
structure RobotsData where
  index : Option Bool
  follow : Option Bool
  noarchive : Option Bool
  nosnippet : Option Bool
  noimageindex : Option Bool
  deriving Repr, DecidableEq

/-- `MetadataConfig` (src/lib/seo/types.ts): `title`/`description` are required
strings, the rest optional. -/
structure MetadataConfig where
  title : String
  description : String
  canonical : Option String
  openGraph : Option OGData
  twitter : Option TwData
  robots : Option RobotsData
  deriving Repr, DecidableEq

/-- `Partial<MetadataConfig>`: every top-level field may be absent. -/
structure PartialMetadata where
  title : Option String
  description : Option String
  canonical : Option String
  openGraph : Option OGData
  twitter : Option TwData
  robots : Option RobotsData
  deriving Repr, DecidableEq

/-!
## Metadata merging (src/lib/seo/social-media-optimizer.ts, `mergeMetadata`)
-/

/-- JS object spread `{...fallback, ...primary}` on Open Graph objects: a key
present in `primary` overrides, keys absent from `primary` fall back. -/
def spreadOpenGraph (fb : Option OGData) (p : OGData) : OGData where
  title := p.title.or (fb.bind OGData.title)
  description := p.description.or (fb.bind OGData.description)
  image := p.image.or (fb.bind OGData.image)
  type := p.type.or (fb.bind OGData.type)
  siteName := p.siteName.or (fb.bind OGData.siteName)

/-- JS object spread `{...fallback, ...primary}` on Twitter objects. -/
def spreadTwitter (fb : Option TwData) (p : TwData) : TwData where
  card := p.card.or (fb.bind TwData.card)
  title := p.title.or (fb.bind TwData.title)
  description := p.description.or (fb.bind TwData.description)
  image := p.image.or (fb.bind TwData.image)
  site := p.site.or (fb.bind TwData.site)

/-- JS object spread `{...fallback, ...primary}` on robots objects. -/
def spreadRobots (fb : Option RobotsData) (p : RobotsData) : RobotsData where
  index := p.index.or (fb.bind RobotsData.index)
  follow := p.follow.or (fb.bind RobotsData.follow)
  noarchive := p.noarchive.or (fb.bind RobotsData.noarchive)
  nosnippet := p.nosnippet.or (fb.bind RobotsData.nosnippet)
  noimageindex := p.noimageindex.or (fb.bind RobotsData.noimageindex)

/-- `mergeMetadata(primary, fallback)` from
src/lib/seo/social-media-optimizer.ts: string fields use JS `||` (so a falsy
`""` in `primary` falls back), object fields use
`primary.x ? {...fallback.x, ...primary.x} : fallback.x`. -/
def mergeMetadata (primary : PartialMetadata) (fallback : MetadataConfig) :
    MetadataConfig where
  title := jsOrStr primary.title fallback.title
  description := jsOrStr primary.description fallback.description
  canonical := jsOrOpt primary.canonical fallback.canonical
  openGraph :=
    match primary.openGraph with
    | some p => some (spreadOpenGraph fallback.openGraph p)
    | none => fallback.openGraph
  twitter :=
    match primary.twitter with
    | some p => some (spreadTwitter fallback.twitter p)
    | none => fallback.twitter
  robots :=
    match primary.robots with
    | some p => some (spreadRobots fallback.robots p)
    | none => fallback.robots

/-- A concrete fallback configuration used in counterexamples. -/
def cexFallback : MetadataConfig where
  title := "Fallback"
  description := "Fallback description"
  canonical := some "https://lunar22.com/"
  openGraph := some ⟨some "OG", some "OGD", some "/lem.avif", some "website", some "Lunar 22"⟩
  twitter := none
  robots := none

/-- A primary override that defines `title` as the empty string. -/
def cexPrimaryEmptyTitle : PartialMetadata where
  title := some ""
  description := none
  canonical := none
  openGraph := none
  twitter := none
  robots := none

/-- Claim C1 counterexample: `primary` defines `title` (as `""`), yet the merge
does not take primary's value — JS `||` treats the empty string as falsy and
falls back, so the universally quantified claim is false as stated. -/
theorem mergeMetadata_empty_string_defined_field_falls_back :
    cexPrimaryEmptyTitle.title = some "" ∧
    (mergeMetadata cexPrimaryEmptyTitle cexFallback).title = "Fallback" ∧
    (mergeMetadata cexPrimaryEmptyTitle cexFallback).title ≠ "" := by
  refine ⟨rfl, rfl, by decide⟩

/-- Claim C1 (amended): for every fallback and partial primary, a top-level
string field that `primary` defines with a non-empty value wins; a string field
left absent or defined as `""` falls back; object-valued fields defined by
`primary` are merged shallowly (`{...fallback.x, ...primary.x}`, sub-fields
absent from `primary` falling back individually) and otherwise pass fallback
through; `mergeMetadata` is total, and `mergeMetadata {title := X} fallback`
for non-empty `X` equals `fallback` with only `title` replaced. -/
theorem mergeMetadata_spec (p : PartialMetadata) (fb : MetadataConfig) :
    ((∀ s, p.title = some s → s ≠ "" → (mergeMetadata p fb).title = s) ∧
      ((p.title = none ∨ p.title = some "") →
        (mergeMetadata p fb).title = fb.title)) ∧
    ((∀ s, p.description = some s → s ≠ "" →
        (mergeMetadata p fb).description = s) ∧
      ((p.description = none ∨ p.description = some "") →
        (mergeMetadata p fb).description = fb.description)) ∧
    ((strTruthy p.canonical = true →
        (mergeMetadata p fb).canonical = p.canonical) ∧
      (strTruthy p.canonical = false →
        (mergeMetadata p fb).canonical = fb.canonical)) ∧
    ((∀ og, p.openGraph = some og →
        (mergeMetadata p fb).openGraph = some (spreadOpenGraph fb.openGraph og)) ∧
      (p.openGraph = none → (mergeMetadata p fb).openGraph = fb.openGraph)) ∧
    ((∀ tw, p.twitter = some tw →
        (mergeMetadata p fb).twitter = some (spreadTwitter fb.twitter tw)) ∧
      (p.twitter = none → (mergeMetadata p fb).twitter = fb.twitter)) ∧
    ((∀ rb, p.robots = some rb →
        (mergeMetadata p fb).robots = some (spreadRobots fb.robots rb)) ∧
      (p.robots = none → (mergeMetadata p fb).robots = fb.robots)) ∧
    (∀ X, X ≠ "" →
      mergeMetadata ⟨some X, none, none, none, none, none⟩ fb =
        { fb with title := X }) := by
  refine ⟨⟨?_, ?_⟩, ⟨?_, ?_⟩, ⟨?_, ?_⟩, ⟨?_, ?_⟩, ⟨?_, ?_⟩, ⟨?_, ?_⟩, ?_⟩
  · intro s hs hne
    simp [mergeMetadata, jsOrStr, hs, hne]
  · rintro (h | h) <;> simp [mergeMetadata, jsOrStr, h]
  · intro s hs hne
    simp [mergeMetadata, jsOrStr, hs, hne]
  · rintro (h | h) <;> simp [mergeMetadata, jsOrStr, h]
  · intro h
    simp [mergeMetadata, jsOrOpt, h]
  · intro h
    simp [mergeMetadata, jsOrOpt, h]
  · intro og h
    simp [mergeMetadata, h]
  · intro h
    simp [mergeMetadata, h]
  · intro tw h
    simp [mergeMetadata, h]
  · intro h
    simp [mergeMetadata, h]
  · intro rb h
    simp [mergeMetadata, h]
  · intro h
    simp [mergeMetadata, h]
  · intro X hX
    simp [mergeMetadata, jsOrStr, jsOrOpt, hX, strTruthy]

/-- Witness for `mergeMetadata_spec` at a concrete input: the title override
`{title := "X"}` leaves all other fallback fields untouched. -/
theorem mergeMetadata_spec_witness :
    mergeMetadata ⟨some "X", none, none, none, none, none⟩ cexFallback =
      { cexFallback with title := "X" } :=
  (mergeMetadata_spec ⟨some "X", none, none, none, none, none⟩ cexFallback).2.2.2.2.2.2
    "X" (by decide)

/-!
## Sanitizers (src/lib/seo/utils.ts: `escapeHtml`, `sanitizeDescription`)
-/

/-- The JS regex `\s` character class (ASCII whitespace plus the Unicode
space separators JS includes). -/
def isJsWs (c : Char) : Bool :=
  c = ' ' || c = Char.ofNat 9 || c = Char.ofNat 10 || c = Char.ofNat 11 ||
  c = Char.ofNat 12 || c = Char.ofNat 13 || c.toNat = 0xa0 ||
  c.toNat = 0x1680 || (0x2000 ≤ c.toNat && c.toNat ≤ 0x200a) ||
  c.toNat = 0x2028 || c.toNat = 0x2029 || c.toNat = 0x202f ||
  c.toNat = 0x205f || c.toNat = 0x3000 || c.toNat = 0xfeff

/-- JS `String.prototype.trim`: strip whitespace from both ends. -/
def jsTrimList (l : List Char) : List Char :=
  ((l.dropWhile isJsWs).reverse.dropWhile isJsWs).reverse

/-- JS `.replace(/\s+/g, ' ')`: collapse each whitespace run to one space.
The flag records whether the previous character was part of a run. -/
def collapseWsAux : List Char → Bool → List Char
  | [], _ => []
  | c :: l, prev =>
    if isJsWs c then
      if prev then collapseWsAux l true else ' ' :: collapseWsAux l true
    else c :: collapseWsAux l false

/-- `escapeHtml`'s per-character entity table
(src/lib/seo/utils.ts, `htmlEntities`). -/
def escapeHtmlChar (c : Char) : List Char :=
  if c = '&' then "&amp;".data
  else if c = '<' then "&lt;".data
  else if c = '>' then "&gt;".data
  else if c = Char.ofNat 34 then "&quot;".data
  else if c = Char.ofNat 39 then "&#39;".data
  else [c]

/-- `escapeHtml(text)` (src/lib/seo/utils.ts): replace each of the five
reserved characters by its entity. -/
def escapeHtml (s : String) : String :=
  ⟨(s.data.map escapeHtmlChar).flatten⟩

/-- A JS argument that may fail the `typeof x !== 'string'` guard. -/
inductive JsInput where
  | str (s : String)
  | nonString
  deriving Repr, DecidableEq

/-- The trim/collapse/escape pipeline shared by the sanitizers:
`escapeHtml(description.trim().replace(/\s+/g, ' '))`. -/
def cleanedOf (s : String) : List Char :=
  (escapeHtml ⟨collapseWsAux (jsTrimList s.data) false⟩).data

/-- `sanitizeDescription` (src/lib/seo/utils.ts): empty string on non-string
or falsy input; otherwise trim, collapse whitespace, HTML-escape, and
truncate to 157 characters plus `"..."` when the result exceeds 160. -/
def sanitizeDescription : JsInput → String
  | .nonString => ""
  | .str s =>
    if s = "" then ""
    else
      let cleaned := cleanedOf s
      if 160 < cleaned.length then ⟨cleaned.take 157 ++ "...".data⟩
      else ⟨cleaned⟩

/-- Claim C2: `sanitizeDescription` trims, collapses whitespace and
HTML-escapes; an escaped result of at most 160 characters is returned
unchanged, a longer one is cut to exactly its first 157 characters plus
`"..."` (total length 160); non-string input yields `""` without throwing. -/
theorem sanitizeDescription_spec (s : String) :
    (sanitizeDescription .nonString = "") ∧
    ((cleanedOf s).length ≤ 160 →
      sanitizeDescription (.str s) = ⟨cleanedOf s⟩) ∧
    (160 < (cleanedOf s).length →
      sanitizeDescription (.str s) = ⟨(cleanedOf s).take 157 ++ "...".data⟩ ∧
      (sanitizeDescription (.str s)).length = 160) := by
  refine ⟨rfl, ?_, ?_⟩
  · intro h
    by_cases hs : s = ""
    · subst hs; rfl
    · simp [sanitizeDescription, hs, Nat.not_lt.mpr h]
  · intro h
    have hs : s ≠ "" := by
      intro e
      subst e
      revert h
      decide
    have hres : sanitizeDescription (.str s) = ⟨(cleanedOf s).take 157 ++ "...".data⟩ := by
      simp [sanitizeDescription, hs, h]
    refine ⟨hres, ?_⟩
    rw [hres]
    show ((cleanedOf s).take 157 ++ "...".data).length = 160
    rw [List.length_append, List.length_take, Nat.min_eq_left (by omega)]
    rfl

/-- Witness for `sanitizeDescription_spec`: both branches at concrete inputs
(a short description with internal whitespace, and a 170-character one). -/
theorem sanitizeDescription_spec_witness :
    sanitizeDescription (.str "a  <b") = "a &lt;b" ∧
    sanitizeDescription (.str ⟨List.replicate 170 'x'⟩) =
      ⟨List.replicate 157 'x' ++ "...".data⟩ := by
  constructor
  · have h := (sanitizeDescription_spec "a  <b").2.1 (by decide)
    rw [h]
    decide
  · have h := (sanitizeDescription_spec ⟨List.replicate 170 'x'⟩).2.2 (by decide)
    rw [h.1]
    decide

/-!
## Contact-form validation (src/lib/email.ts)
-/

/-- One character of the `[^\s@]` class in the email regex. -/
def emailChar (c : Char) : Bool :=
  !isJsWs c && c ≠ '@'

/-- Split a character list at every occurrence of `sep`. -/
def splitOnChar (sep : Char) (l : List Char) : List (List Char) :=
  l.foldr
    (fun c acc =>
      match acc with
      | [] => [[c]]
      | cur :: rest => if c = sep then [] :: cur :: rest else (c :: cur) :: rest)
    [[]]

/-- Anchored-match semantics of `validateEmail`'s regex
`/^[^\s@]+@[^\s@]+\.[^\s@]+$/` (src/lib/email.ts): exactly one `@`, a
non-empty whitespace-free local part, and a domain part that is
whitespace-free with a `.` that is neither its first nor its last character
(so both regex segments around the dot are non-empty). -/
def emailTest (s : String) : Bool :=
  match splitOnChar '@' s.data with
  | [a, d] =>
    !a.isEmpty && a.all (fun c => !isJsWs c) &&
    d.all (fun c => !isJsWs c) && ((d.drop 1).dropLast.contains '.')
  | _ => false

/-- The `{name, email, subject, message}` body of a contact request. -/
structure ContactForm where
  name : String
  email : String
  subject : String
  message : String
  deriving Repr, DecidableEq

/-- `{isValid, errors}` as returned by `validateContactForm`. -/
structure ContactValidation where
  isValid : Bool
  errors : List String
  deriving Repr, DecidableEq

def nameMinErr : String := "Name must be at least 2 characters long"

def emailFormatErr : String := "Please provide a valid email address"

def subjectMinErr : String := "Subject must be at least 3 characters long"

def messageMinErr : String := "Message must be at least 10 characters long"

def nameMaxErr : String := "Name must be less than 100 characters"

def subjectMaxErr : String := "Subject must be less than 200 characters"

def messageMaxErr : String := "Message must be less than 2000 characters"

/-- `validateContactForm` (src/lib/email.ts): accumulate the seven error
checks in source order; `isValid` is `errors.length === 0`. -/
def validateContactForm (d : ContactForm) : ContactValidation :=
  let errors :=
    (if d.name = "" ∨ d.name.length < 2 then [nameMinErr] else []) ++
    (if d.email = "" ∨ emailTest d.email = false then [emailFormatErr] else []) ++
    (if d.subject = "" ∨ d.subject.length < 3 then [subjectMinErr] else []) ++
    (if d.message = "" ∨ d.message.length < 10 then [messageMinErr] else []) ++
    (if 100 < d.name.length then [nameMaxErr] else []) ++
    (if 200 < d.subject.length then [subjectMaxErr] else []) ++
    (if 2000 < d.message.length then [messageMaxErr] else [])
  ⟨errors.isEmpty, errors⟩

/-- A 100-character name, sitting exactly on the claimed boundary. -/
def hundredCharName : String := ⟨List.replicate 100 'a'⟩

/-- Claim C3 counterexample: a form whose name has exactly 100 characters is
accepted (`isValid = true`) because the code only rejects names *longer than*
100 characters, contradicting the claimed "less than 100" bound. -/
theorem validateContactForm_boundary_counterexample :
    (validateContactForm ⟨hundredCharName, "a@b.c", "abc", "aaaaaaaaaa"⟩).isValid
      = true ∧
    ¬ hundredCharName.length < 100 := by
  constructor
  · decide
  · decide

/-- Claim C3 (amended): `isValid` holds exactly when the name has 2 to 100
characters, the subject 3 to 200, the message 10 to 2000 (all bounds
inclusive on the upper end) and the email matches the regex; and the concrete
input from the spec produces exactly the name-length, email-format and
message-length errors, with no subject error. -/
theorem validateContactForm_spec (d : ContactForm) :
    ((validateContactForm d).isValid = true ↔
      (2 ≤ d.name.length ∧ d.name.length ≤ 100 ∧
       emailTest d.email = true ∧
       3 ≤ d.subject.length ∧ d.subject.length ≤ 200 ∧
       10 ≤ d.message.length ∧ d.message.length ≤ 2000)) ∧
    validateContactForm ⟨"A", "bad", "ok!", "short"⟩ =
      ⟨false, [nameMinErr, emailFormatErr, messageMinErr]⟩ := by
  constructor
  · simp only [validateContactForm, List.isEmpty_iff, List.append_eq_nil,
      ite_eq_right_iff, and_assoc]
    constructor
    · intro h
      rcases h with ⟨h1, h2, h3, h4, h5, h6, h7⟩
      have c1 : ¬ (d.name = "" ∨ d.name.length < 2) := by
        intro h; exact absurd (h1 h) (by simp)
      have c2 : ¬ (d.email = "" ∨ emailTest d.email = false) := by
        intro h; exact absurd (h2 h) (by simp)
      have c3 : ¬ (d.subject = "" ∨ d.subject.length < 3) := by
        intro h; exact absurd (h3 h) (by simp)
      have c4 : ¬ (d.message = "" ∨ d.message.length < 10) := by
        intro h; exact absurd (h4 h) (by simp)
      have c5 : ¬ (100 < d.name.length) := by
        intro h; exact absurd (h5 h) (by simp)
      have c6 : ¬ (200 < d.subject.length) := by
        intro h; exact absurd (h6 h) (by simp)
      have c7 : ¬ (2000 < d.message.length) := by
        intro h; exact absurd (h7 h) (by simp)
      push_neg at c1 c2 c3 c4
      refine ⟨by omega, by omega, ?_, by omega, by omega, by omega, by omega⟩
      rcases Bool.eq_false_or_eq_true (emailTest d.email) with h | h
      · exact h
      · exact absurd h c2.2
    · rintro ⟨h1, h2, h3, h4, h5, h6, h7⟩
      have hn : d.name ≠ "" := by
        intro e; rw [e] at h1; revert h1; decide
      have he : d.email ≠ "" := by
        intro e; rw [e] at h3; revert h3; decide
      have hs : d.subject ≠ "" := by
        intro e; rw [e] at h4; revert h4; decide
      have hm : d.message ≠ "" := by
        intro e; rw [e] at h6; revert h6; decide
      refine ⟨?_, ?_, ?_, ?_, ?_, ?_, ?_⟩ <;> intro h
      · rcases h with h | h
        · exact absurd h hn
        · omega
      · rcases h with h | h
        · exact absurd h he
        · rw [h3] at h; exact absurd h (by decide)
      · rcases h with h | h
        · exact absurd h hs
        · omega
      · rcases h with h | h
        · exact absurd h hm
        · omega
      · omega
      · omega
      · omega
  · decide

/-!
## In-memory rate limiter (src/lib/email.ts, `rateLimit`)
-/

/-- One `{count, resetTime}` record of the rate-limit map. -/
structure RLRecord where
  count : Nat
  resetTime : Nat
  deriving Repr, DecidableEq

/-- The module-level `rateLimitMap`, as a function from identifier to record. -/
def RLState : Type := String → Option RLRecord

/-- `rateLimitMap.set(identifier, record)`. -/
def RLState.set (st : RLState) (key : String) (r : RLRecord) : RLState :=
  fun x => if x = key then some r else st x

/-- `rateLimit(identifier, limit, windowMs)` (src/lib/email.ts) at time `now`,
with the map passed explicitly: a missing or expired record resets to count 1
and returns `true`; a saturated record returns `false`; otherwise the count is
incremented and the call returns `true`. -/
def rateLimit (st : RLState) (key : String) (limit windowMs now : Nat) :
    Bool × RLState :=
  match st key with
  | none => (true, st.set key ⟨1, now + windowMs⟩)
  | some r =>
    if r.resetTime < now then (true, st.set key ⟨1, now + windowMs⟩)
    else if limit ≤ r.count then (false, st)
    else (true, st.set key ⟨r.count + 1, r.resetTime⟩)

/-- Claim C4: starting from a map with no record for the identifier, six
calls with limit 5 and window 900000 whose times do not pass the stored reset
time return `true` five times and then `false`; a seventh call past the reset
time returns `true` again. -/
theorem rateLimit_spec (st : RLState) (key : String) (t1 t2 t3 t4 t5 t6 t7 : Nat)
    (h0 : st key = none) (h2 : t2 ≤ t1 + 900000) (h3 : t3 ≤ t1 + 900000)
    (h4 : t4 ≤ t1 + 900000) (h5 : t5 ≤ t1 + 900000) (h6 : t6 ≤ t1 + 900000)
    (h7 : t1 + 900000 < t7) :
    ∃ s1 s2 s3 s4 s5 s6 s7 : RLState,
      rateLimit st key 5 900000 t1 = (true, s1) ∧
      rateLimit s1 key 5 900000 t2 = (true, s2) ∧
      rateLimit s2 key 5 900000 t3 = (true, s3) ∧
      rateLimit s3 key 5 900000 t4 = (true, s4) ∧
      rateLimit s4 key 5 900000 t5 = (true, s5) ∧
      rateLimit s5 key 5 900000 t6 = (false, s6) ∧
      rateLimit s6 key 5 900000 t7 = (true, s7) := by
  have hset : ∀ (s : RLState) (r : RLRecord), (s.set key r) key = some r := by
    intro s r
    simp [RLState.set]
  refine ⟨st.set key ⟨1, t1 + 900000⟩,
    (st.set key ⟨1, t1 + 900000⟩).set key ⟨2, t1 + 900000⟩,
    ((st.set key ⟨1, t1 + 900000⟩).set key ⟨2, t1 + 900000⟩).set key
      ⟨3, t1 + 900000⟩,
    (((st.set key ⟨1, t1 + 900000⟩).set key ⟨2, t1 + 900000⟩).set key
      ⟨3, t1 + 900000⟩).set key ⟨4, t1 + 900000⟩,
    ((((st.set key ⟨1, t1 + 900000⟩).set key ⟨2, t1 + 900000⟩).set key
      ⟨3, t1 + 900000⟩).set key ⟨4, t1 + 900000⟩).set key ⟨5, t1 + 900000⟩,
    ((((st.set key ⟨1, t1 + 900000⟩).set key ⟨2, t1 + 900000⟩).set key
      ⟨3, t1 + 900000⟩).set key ⟨4, t1 + 900000⟩).set key ⟨5, t1 + 900000⟩,
    (((((st.set key ⟨1, t1 + 900000⟩).set key ⟨2, t1 + 900000⟩).set key
      ⟨3, t1 + 900000⟩).set key ⟨4, t1 + 900000⟩).set key
      ⟨5, t1 + 900000⟩).set key ⟨1, t7 + 900000⟩,
    ?_, ?_, ?_, ?_, ?_, ?_, ?_⟩
  · simp [rateLimit, h0]
  · simp [rateLimit, hset, Nat.not_lt.mpr h2]
  · simp [rateLimit, hset, Nat.not_lt.mpr h3]
  · simp [rateLimit, hset, Nat.not_lt.mpr h4]
  · simp [rateLimit, hset, Nat.not_lt.mpr h5]
  · simp [rateLimit, hset, Nat.not_lt.mpr h6]
  · simp [rateLimit, hset, h7]

/-- Witness for `rateLimit_spec`: the concrete call pattern of the spec
(identifier `"1.2.3.4"`, fresh map, calls at times 0..5 and one at 900001). -/
theorem rateLimit_spec_witness :
    ∃ s1 s2 s3 s4 s5 s6 s7 : RLState,
      rateLimit (fun _ => none) "1.2.3.4" 5 900000 0 = (true, s1) ∧
      rateLimit s1 "1.2.3.4" 5 900000 1 = (true, s2) ∧
      rateLimit s2 "1.2.3.4" 5 900000 2 = (true, s3) ∧
      rateLimit s3 "1.2.3.4" 5 900000 3 = (true, s4) ∧
      rateLimit s4 "1.2.3.4" 5 900000 4 = (true, s5) ∧
      rateLimit s5 "1.2.3.4" 5 900000 5 = (false, s6) ∧
      rateLimit s6 "1.2.3.4" 5 900000 900001 = (true, s7) :=
  rateLimit_spec (fun _ => none) "1.2.3.4" 0 1 2 3 4 5 900001 rfl
    (by decide) (by decide) (by decide) (by decide) (by decide) (by decide)

/-!
## Token counting (the semantics of `(s.match(/tok/g) || []).length`)
-/

/-- One step of the JS global-regex scan for a literal token; `skip` is the
number of characters of the previous match still to be stepped over. -/
def countMatchesAux (tok : List Char) : List Char → Nat → Nat
  | [], _ => 0
  | _ :: l, skip + 1 => countMatchesAux tok l skip
  | c :: l, 0 =>
    if tok.isPrefixOf (c :: l) then 1 + countMatchesAux tok l (tok.length - 1)
    else countMatchesAux tok l 0

/-- Number of global-scan matches of a literal token in `l`. -/
def countMatches (tok l : List Char) : Nat :=
  countMatchesAux tok l 0

/-- `s = t.data` determines `s = t` for strings. -/
theorem stringExt (s t : String) (h : s.data = t.data) : s = t := by
  cases s
  cases t
  exact congrArg String.mk h

/-- Scanning from skip state 0 through a block free of the token's first
character finds nothing and changes no state. -/
theorem countMatchesAux_skip_block (c0 : Char) (t B l : List Char)
    (hB : ∀ c ∈ B, c ≠ c0) :
    countMatchesAux (c0 :: t) (B ++ l) 0 = countMatchesAux (c0 :: t) l 0 := by
  induction B with
  | nil => rfl
  | cons c B ih =>
    have hc : c ≠ c0 := hB c (by simp)
    have hp : (c0 :: t).isPrefixOf (c :: (B ++ l)) = false := by
      rw [Bool.eq_false_iff]
      intro h
      rcases List.isPrefixOf_iff_prefix.mp h with ⟨u, hu⟩
      simp at hu
      exact hc hu.1.symm
    rw [List.cons_append]
    show (if (c0 :: t).isPrefixOf (c :: (B ++ l)) = true then
        1 + countMatchesAux (c0 :: t) (B ++ l) ((c0 :: t).length - 1)
      else countMatchesAux (c0 :: t) (B ++ l) 0) =
      countMatchesAux (c0 :: t) l 0
    rw [hp]
    simp only [Bool.false_eq_true, if_false]
    exact ih fun c h => hB c (by simp [h])

/-- `noCross tok T` says no non-empty suffix of `T` shorter than `tok` is a
prefix of `tok`, so no occurrence of `tok` can straddle the right edge of a
block `T`. -/
def noCross (tok T : List Char) : Bool :=
  T.tails.all fun s => s.isEmpty || tok.length ≤ s.length || !s.isPrefixOf tok

/-- The global scan distributes over an append whose left block no occurrence
can straddle, provided the pending skip fits inside the left block. -/
theorem countMatchesAux_append (tok : List Char)
    (T : List Char) : ∀ (R : List Char) (skip : Nat), skip ≤ T.length →
      noCross tok T = true →
      countMatchesAux tok (T ++ R) skip =
        countMatchesAux tok T skip + countMatchesAux tok R 0 := by
  induction T with
  | nil =>
    intro R skip hskip _
    have h0 : skip = 0 := Nat.le_zero.mp hskip
    subst h0
    simp [countMatchesAux]
  | cons c T ih =>
    intro R skip hskip hnc
    have hnc2 := hnc
    rw [noCross, List.tails_cons, List.all_cons, Bool.and_eq_true] at hnc2
    obtain ⟨h1, h2⟩ := hnc2
    have hnc' : noCross tok T = true := h2
    match skip with
    | s + 1 =>
      rw [List.cons_append]
      show countMatchesAux tok (T ++ R) s =
        countMatchesAux tok T s + countMatchesAux tok R 0
      exact ih R s (by simpa using hskip) hnc'
    | 0 =>
      by_cases hp : tok.isPrefixOf (c :: (T ++ R)) = true
      · have hpre : tok <+: (c :: T) ++ R := by
          rw [List.cons_append]
          exact List.isPrefixOf_iff_prefix.mp hp
        have hfit : tok.length ≤ (c :: T).length := by
          by_contra hlt
          push_neg at hlt
          have h3 : ((c :: T) ++ R).take (c :: T).length = c :: T := by
            simp
          rcases hpre with ⟨u, hu⟩
          have h4 := congrArg (List.take (c :: T).length) hu
          rw [List.take_append_of_le_length (le_of_lt hlt), h3] at h4
          have hcp : (c :: T).isPrefixOf tok = true := by
            rw [List.isPrefixOf_iff_prefix, List.prefix_iff_eq_take]
            exact h4.symm
          simp [hcp] at h1
          simp at hlt
          omega
        have hp' : tok.isPrefixOf (c :: T) = true := by
          rw [List.isPrefixOf_iff_prefix, List.prefix_iff_eq_take]
          have h5 : tok = ((c :: T) ++ R).take tok.length :=
            List.prefix_iff_eq_take.mp hpre
          rw [List.take_append_of_le_length hfit] at h5
          exact h5
        rw [List.cons_append]
        show (if tok.isPrefixOf (c :: (T ++ R)) = true then
            1 + countMatchesAux tok (T ++ R) (tok.length - 1)
          else countMatchesAux tok (T ++ R) 0) =
          countMatchesAux tok (c :: T) 0 + countMatchesAux tok R 0
        rw [hp]
        have hrhs : countMatchesAux tok (c :: T) 0 =
            1 + countMatchesAux tok T (tok.length - 1) := by
          show (if tok.isPrefixOf (c :: T) = true then
              1 + countMatchesAux tok T (tok.length - 1)
            else countMatchesAux tok T 0) =
            1 + countMatchesAux tok T (tok.length - 1)
          rw [hp']
          simp
        rw [hrhs]
        have hih := ih R (tok.length - 1) (by simp at hfit; omega) hnc'
        simp only [if_true]
        omega
      · have hp0 : tok.isPrefixOf (c :: (T ++ R)) = false :=
          Bool.eq_false_iff.mpr hp
        have hp' : tok.isPrefixOf (c :: T) = false := by
          rw [Bool.eq_false_iff]
          intro h
          apply hp
          rw [List.isPrefixOf_iff_prefix] at h ⊢
          rw [← List.cons_append]
          exact h.trans (List.prefix_append (c :: T) R)
        rw [List.cons_append]
        show (if tok.isPrefixOf (c :: (T ++ R)) = true then
            1 + countMatchesAux tok (T ++ R) (tok.length - 1)
          else countMatchesAux tok (T ++ R) 0) =
          countMatchesAux tok (c :: T) 0 + countMatchesAux tok R 0
        rw [hp0]
        have hrhs : countMatchesAux tok (c :: T) 0 = countMatchesAux tok T 0 := by
          show (if tok.isPrefixOf (c :: T) = true then
              1 + countMatchesAux tok T (tok.length - 1)
            else countMatchesAux tok T 0) =
            countMatchesAux tok T 0
          rw [hp']
          simp
        rw [hrhs]
        simp only [Bool.false_eq_true, if_false]
        exact ih R 0 (by omega) hnc'

/-!
## Sitemap generation (src/lib/seo/sitemap-generator.ts)
-/

/-- `escapeXml`'s per-character entity table
(src/lib/seo/sitemap-generator.ts, `xmlEntities`). -/
def escapeXmlChar (c : Char) : List Char :=
  if c = '&' then "&amp;".data
  else if c = '<' then "&lt;".data
  else if c = '>' then "&gt;".data
  else if c = Char.ofNat 34 then "&quot;".data
  else if c = Char.ofNat 39 then "&apos;".data
  else [c]

/-- `escapeXml(text)`: replace the five XML-reserved characters. -/
def escapeXml (s : String) : String :=
  ⟨(s.data.map escapeXmlChar).flatten⟩

/-- Characters the XML escaper leaves untouched. -/
def xmlSafeChar (c : Char) : Bool :=
  c ≠ '&' && c ≠ '<' && c ≠ '>' && c ≠ Char.ofNat 34 && c ≠ Char.ofNat 39

theorem escapeXmlList_of_safe (l : List Char) (h : ∀ c ∈ l, xmlSafeChar c = true) :
    (l.map escapeXmlChar).flatten = l := by
  induction l with
  | nil => rfl
  | cons c l ih =>
    have hc := h c (by simp)
    simp only [xmlSafeChar, Bool.and_eq_true, decide_eq_true_eq] at hc
    simp only [List.map_cons, List.flatten_cons]
    rw [ih fun c hc2 => h c (by simp [hc2])]
    simp [escapeXmlChar, hc.1.1.1.1, hc.1.1.1.2, hc.1.1.2, hc.1.2, hc.2]

theorem escapeXml_of_safe (s : String) (h : s.data.all xmlSafeChar = true) :
    escapeXml s = s := by
  apply stringExt
  show (s.data.map escapeXmlChar).flatten = s.data
  exact escapeXmlList_of_safe s.data (List.all_eq_true.mp h)

/-- JS `Number.prototype.toFixed(1)` for the exact rationals appearing as
sitemap priorities: round half away from zero to one decimal and print. -/
def toFixed1 (q : ℚ) : String :=
  let n : Int := (20 * q.num + (q.den : Int)).fdiv (2 * (q.den : Int))
  toString (n.fdiv 10) ++ "." ++ toString (n.fmod 10)

/-- The `sitemap` hints of `pageConfigs` (src config module): per-page
`changefreq`/`priority` overrides. -/
structure SitemapHint where
  changefreq : Option String
  priority : Option ℚ

/-- `getPageSEOConfig(path)?.sitemap` for the five configured pages. -/
def pageSitemapHint (path : String) : Option SitemapHint :=
  if path = "/" then some ⟨some "weekly", some 1⟩
  else if path = "/contact" then some ⟨some "monthly", some (4 / 5)⟩
  else if path = "/about" then some ⟨some "monthly", some (9 / 10)⟩
  else if path = "/power-rangers" then some ⟨some "monthly", some (4 / 5)⟩
  else if path = "/founders" then some ⟨some "yearly", some (7 / 10)⟩
  else none

/-- `PageInfo` (src/lib/seo/types.ts): an optional last-modified ISO string
(`formatSEODate` round-trips ISO input, so the date is kept as its string),
and optional changefreq/priority overrides. -/
structure PageInfo where
  path : String
  lastModified : Option String
  changeFrequency : Option String
  priority : Option ℚ

/-- The designated static pages of `getLastModified`. -/
def staticPages : List String := ["/", "/about", "/founders"]

/-- `getLastModified(path)`: a fixed date for static pages, the current
timestamp otherwise (`nowIso` models `new Date().toISOString()`). -/
def getLastModified (nowIso path : String) : String :=
  if path ∈ staticPages then "2024-01-01T00:00:00.000Z" else nowIso

/-- One `SitemapEntry` (src/lib/seo/types.ts). -/
structure SitemapEntry where
  url : String
  lastmod : String
  changefreq : String
  priority : ℚ

/-- `createSitemapEntry(page)` (src/lib/seo/sitemap-generator.ts): URL from
base URL and path; lastmod from the page or `getLastModified`; changefreq via
JS `||` over page, config hint and `'monthly'`; priority via `??` over page,
config hint and `0.5`. -/
def createSitemapEntry (baseUrl nowIso : String) (page : PageInfo) :
    SitemapEntry where
  url := baseUrl ++ page.path
  lastmod :=
    match page.lastModified with
    | some d => d
    | none => getLastModified nowIso page.path
  changefreq :=
    jsOrStr (jsOrOpt page.changeFrequency
      ((pageSitemapHint page.path).bind SitemapHint.changefreq)) "monthly"
  priority :=
    (page.priority.or
      ((pageSitemapHint page.path).bind SitemapHint.priority)).getD (1 / 2)

/-- `lines.join('\n')`. -/
def joinNL : List String → String
  | [] => ""
  | [x] => x
  | x :: xs => x ++ "\n" ++ joinNL xs

def xmlHeader : String := "<?xml version=\"1.0\" encoding=\"UTF-8\"?>"

def urlsetOpen : String :=
  "<urlset xmlns=\"http://www.sitemaps.org/schemas/sitemap/0.9\">"

def urlsetClose : String := "</urlset>"

/-- `formatSitemapEntry(entry)`: the six XML lines joined by newlines, with
the URL XML-escaped and the priority printed via `toFixed(1)`. -/
def formatSitemapEntry (e : SitemapEntry) : String :=
  joinNL
    ["  <url>",
     "    <loc>" ++ escapeXml e.url ++ "</loc>",
     "    <lastmod>" ++ e.lastmod ++ "</lastmod>",
     "    <changefreq>" ++ e.changefreq ++ "</changefreq>",
     "    <priority>" ++ toFixed1 e.priority ++ "</priority>",
     "  </url>"]

/-- `generateSitemap(pages)` (src/lib/seo/sitemap-generator.ts) on the branch
where an explicit page list is supplied (the default branch merges in
file-system page discovery, which is outside this model): every page becomes
a formatted entry inside the urlset envelope. -/
def generateSitemapFromPages (baseUrl nowIso : String) (pages : List PageInfo) :
    String :=
  xmlHeader ++ "\n" ++ urlsetOpen ++ "\n" ++
    joinNL (pages.map fun p => formatSitemapEntry (createSitemapEntry baseUrl nowIso p)) ++
    "\n" ++ urlsetClose

/-- The single page of claim C7. -/
def homePageInfo : PageInfo := ⟨"/", none, some "weekly", some 1⟩

/-- Claim C7: generating a sitemap for the single page
`{path: "/", changefreq: "weekly", priority: 1.0}` with an XML-safe base URL
`B` yields the urlset envelope around exactly one `<url>` block whose `<loc>`
is `B ++ "/"`, whose `<changefreq>` is `weekly` and whose `<priority>` is the
string `"1.0"`. -/
theorem generateSitemap_single_page (B nowIso : String)
    (hB : (B ++ "/").data.all xmlSafeChar = true) :
    generateSitemapFromPages B nowIso [homePageInfo] =
      xmlHeader ++ "\n" ++ urlsetOpen ++ "\n" ++
        ("  <url>" ++ "\n" ++
         ("    <loc>" ++ (B ++ "/") ++ "</loc>") ++ "\n" ++
         ("    <lastmod>" ++ "2024-01-01T00:00:00.000Z" ++ "</lastmod>") ++ "\n" ++
         ("    <changefreq>" ++ "weekly" ++ "</changefreq>") ++ "\n" ++
         ("    <priority>" ++ "1.0" ++ "</priority>") ++ "\n" ++
         "  </url>") ++
      "\n" ++ urlsetClose ∧
    countMatches "<url>".data
      (generateSitemapFromPages B nowIso [homePageInfo]).data = 1 ∧
    countMatches "</url>".data
      (generateSitemapFromPages B nowIso [homePageInfo]).data = 1 := by
  have hesc : escapeXml (B ++ "/") = B ++ "/" := escapeXml_of_safe _ hB
  have htf : toFixed1 1 = "1.0" := by decide
  have hentry : createSitemapEntry B nowIso homePageInfo =
      ⟨B ++ "/", "2024-01-01T00:00:00.000Z", "weekly", 1⟩ := by
    simp [createSitemapEntry, homePageInfo, getLastModified, staticPages,
      pageSitemapHint, jsOrOpt, jsOrStr, strTruthy, Option.or]
  have hxml : generateSitemapFromPages B nowIso [homePageInfo] =
      xmlHeader ++ "\n" ++ urlsetOpen ++ "\n" ++
        ("  <url>" ++ "\n" ++
         ("    <loc>" ++ (B ++ "/") ++ "</loc>") ++ "\n" ++
         ("    <lastmod>" ++ "2024-01-01T00:00:00.000Z" ++ "</lastmod>") ++ "\n" ++
         ("    <changefreq>" ++ "weekly" ++ "</changefreq>") ++ "\n" ++
         ("    <priority>" ++ "1.0" ++ "</priority>") ++ "\n" ++
         "  </url>") ++
      "\n" ++ urlsetClose := by
    simp only [generateSitemapFromPages, List.map_cons, List.map_nil, hentry,
      joinNL, formatSitemapEntry, hesc, htf]
    simp [String.append_assoc]
  have hB' : ∀ c ∈ B.data, c ≠ '<' := by
    intro c hc
    have : xmlSafeChar c = true := by
      rw [List.all_eq_true] at hB
      exact hB c (by simp [String.data_append, hc])
    simp only [xmlSafeChar, Bool.and_eq_true, decide_eq_true_eq] at this
    exact this.1.1.1.2
  have hdata : (generateSitemapFromPages B nowIso [homePageInfo]).data =
      (xmlHeader.data ++ "\n".data ++ urlsetOpen.data ++ "\n".data ++
        "  <url>".data ++ "\n".data ++ "    <loc>".data) ++
      (B.data ++
        ("/".data ++ "</loc>".data ++ "\n".data ++ "    <lastmod>".data ++
         "2024-01-01T00:00:00.000Z".data ++ "</lastmod>".data ++ "\n".data ++
         "    <changefreq>".data ++ "weekly".data ++ "</changefreq>".data ++
         "\n".data ++ "    <priority>".data ++ "1.0".data ++
         "</priority>".data ++ "\n".data ++ "  </url>".data ++ "\n".data ++
         urlsetClose.data)) := by
    rw [hxml]
    simp [String.data_append, List.append_assoc]
  refine ⟨hxml, ?_, ?_⟩
  · rw [countMatches, hdata,
      countMatchesAux_append "<url>".data _ _ 0 (Nat.zero_le _) (by decide),
      show "<url>".data = '<' :: "url>".data from by decide,
      countMatchesAux_skip_block '<' "url>".data B.data _ hB']
    decide
  · rw [countMatches, hdata,
      countMatchesAux_append "</url>".data _ _ 0 (Nat.zero_le _) (by decide),
      show "</url>".data = '<' :: "/url>".data from by decide,
      countMatchesAux_skip_block '<' "/url>".data B.data _ hB']
    decide

/-- Witness for `generateSitemap_single_page` at the spec's example base URL
`https://example.com`: the generated document has exactly one url block. -/
theorem generateSitemap_single_page_witness :
    countMatches "<url>".data
      (generateSitemapFromPages "https://example.com" "2024-05-05T00:00:00.000Z"
        [homePageInfo]).data = 1 :=
  (generateSitemap_single_page "https://example.com" "2024-05-05T00:00:00.000Z"
    (by decide)).2.1

/-!
## HTTP route handlers (src/app/sitemap.xml/route.ts,
src/app/robots.txt/route.ts, src/app/api/favicon/route.ts)
-/

/-- The status/body/header surface of a `NextResponse`. -/
structure HttpResponse where
  status : Nat
  body : String
  contentType : String
  cacheControl : String
  deriving Repr, DecidableEq

/-- Whether a literal token occurs in `l` (JS `String.prototype.includes`). -/
def hasTok (tok : List Char) : List Char → Bool
  | [] => tok.isEmpty
  | c :: l => tok.isPrefixOf (c :: l) || hasTok tok l

/-- The hard-coded fallback sitemap of the sitemap route's catch branch,
with `nowIso` standing for `new Date().toISOString()`. -/
def fallbackSitemap (nowIso : String) : String :=
  "<?xml version=\"1.0\" encoding=\"UTF-8\"?>\n<urlset xmlns=\"http://www.sitemaps.org/schemas/sitemap/0.9\">\n  <url>\n    <loc>https://lunar22.com/</loc>\n    <lastmod>"
    ++ nowIso ++
    "</lastmod>\n    <changefreq>weekly</changefreq>\n    <priority>1.0</priority>\n  </url>\n</urlset>"

/-- `GET /sitemap.xml` (src/app/sitemap.xml/route.ts): the try/catch around
`generateSitemap()` is modelled by an `Except` generation outcome; both
branches respond 200. -/
def sitemapRouteGET (gen : Except String String) (nowIso : String) :
    HttpResponse :=
  match gen with
  | .ok xml => ⟨200, xml, "application/xml", "public, max-age=3600, s-maxage=3600"⟩
  | .error _ =>
    ⟨200, fallbackSitemap nowIso, "application/xml",
      "public, max-age=300, s-maxage=300"⟩

/-- The hard-coded fallback robots.txt of the robots route's catch branch. -/
def fallbackRobots : String :=
  "User-agent: *\nAllow: /\n\nSitemap: https://lunar22.com/sitemap.xml"

/-- `GET /robots.txt` (src/app/robots.txt/route.ts). -/
def robotsRouteGET (gen : Except String String) : HttpResponse :=
  match gen with
  | .ok txt => ⟨200, txt, "text/plain", "public, max-age=86400, s-maxage=86400"⟩
  | .error _ =>
    ⟨200, fallbackRobots, "text/plain", "public, max-age=3600, s-maxage=3600"⟩

/-- Claim C5: the sitemap and robots handlers always respond 200; on an
internal generation error the sitemap body is the one-entry fallback (exactly
one url block, whose single `<loc>` is the homepage) and the robots body is
the permissive fallback with `Allow: /` and a sitemap reference. -/
theorem seo_routes_never_error (gs gr : Except String String) (nowIso : String)
    (hn : ∀ c ∈ nowIso.data, c ≠ '<') :
    (sitemapRouteGET gs nowIso).status = 200 ∧
    (robotsRouteGET gr).status = 200 ∧
    (∀ e, gs = .error e →
      (sitemapRouteGET gs nowIso).body = fallbackSitemap nowIso) ∧
    countMatches "<url>".data (fallbackSitemap nowIso).data = 1 ∧
    countMatches "<loc>".data (fallbackSitemap nowIso).data = 1 ∧
    countMatches "<loc>https://lunar22.com/</loc>".data
      (fallbackSitemap nowIso).data = 1 ∧
    (∀ e, gr = .error e → (robotsRouteGET gr).body = fallbackRobots) ∧
    hasTok "Allow: /".data fallbackRobots.data = true ∧
    hasTok "Sitemap: https://lunar22.com/sitemap.xml".data fallbackRobots.data
      = true := by
  have hdata : (fallbackSitemap nowIso).data =
      ("<?xml version=\"1.0\" encoding=\"UTF-8\"?>\n<urlset xmlns=\"http://www.sitemaps.org/schemas/sitemap/0.9\">\n  <url>\n    <loc>https://lunar22.com/</loc>\n    <lastmod>").data
      ++ (nowIso.data ++
      ("</lastmod>\n    <changefreq>weekly</changefreq>\n    <priority>1.0</priority>\n  </url>\n</urlset>").data) := by
    simp [fallbackSitemap, String.data_append, List.append_assoc]
  refine ⟨?_, ?_, ?_, ?_, ?_, ?_, ?_, by decide, by decide⟩
  · cases gs <;> rfl
  · cases gr <;> rfl
  · intro e he
    subst he
    rfl
  · rw [countMatches, hdata,
      countMatchesAux_append "<url>".data _ _ 0 (Nat.zero_le _) (by decide),
      show "<url>".data = '<' :: "url>".data from by decide,
      countMatchesAux_skip_block '<' "url>".data nowIso.data _ hn]
    decide
  · rw [countMatches, hdata,
      countMatchesAux_append "<loc>".data _ _ 0 (Nat.zero_le _) (by decide),
      show "<loc>".data = '<' :: "loc>".data from by decide,
      countMatchesAux_skip_block '<' "loc>".data nowIso.data _ hn]
    decide
  · rw [countMatches, hdata,
      countMatchesAux_append "<loc>https://lunar22.com/</loc>".data _ _ 0
        (Nat.zero_le _) (by decide),
      show "<loc>https://lunar22.com/</loc>".data =
        '<' :: "loc>https://lunar22.com/</loc>".data from by decide,
      countMatchesAux_skip_block '<' "loc>https://lunar22.com/</loc>".data
        nowIso.data _ hn]
    decide
  · intro e he
    subst he
    rfl

/-- Witness for `seo_routes_never_error`: concrete failed generations at a
concrete timestamp. -/
theorem seo_routes_never_error_witness :
    (sitemapRouteGET (.error "boom") "2024-05-05T00:00:00.000Z").status = 200 ∧
    (sitemapRouteGET (.error "boom") "2024-05-05T00:00:00.000Z").body =
      fallbackSitemap "2024-05-05T00:00:00.000Z" ∧
    (robotsRouteGET (.error "boom")).status = 200 ∧
    (robotsRouteGET (.error "boom")).body = fallbackRobots := by
  have h := seo_routes_never_error (.error "boom") (.error "boom")
    "2024-05-05T00:00:00.000Z" (by decide)
  exact ⟨h.1, h.2.2.1 "boom" rfl, h.2.1, h.2.2.2.2.2.2.1 "boom" rfl⟩

/-- One entry of `FAVICON_CONFIGS` (src/app/api/favicon/route.ts). -/
structure FaviconConfig where
  path : String
  mimeType : String
  size : String
  deriving Repr, DecidableEq

/-- The `FAVICON_CONFIGS` lookup table (src/app/api/favicon/route.ts). -/
def faviconConfigs : List (String × FaviconConfig) :=
  [("favicon.ico", ⟨"/L22 W.png", "image/x-icon", "32x32"⟩),
   ("favicon-16x16.png", ⟨"/L22 W.png", "image/png", "16x16"⟩),
   ("favicon-32x32.png", ⟨"/L22 W.png", "image/png", "32x32"⟩),
   ("apple-touch-icon.png", ⟨"/L22 W.png", "image/png", "180x180"⟩),
   ("android-chrome-192x192.png", ⟨"/L22 W.png", "image/png", "192x192"⟩),
   ("android-chrome-512x512.png", ⟨"/L22 W.png", "image/png", "512x512"⟩)]

/-- `FAVICON_CONFIGS[type]`. -/
def lookupFavicon (t : String) : Option FaviconConfig :=
  (faviconConfigs.find? fun p => p.1 == t).map Prod.snd

/-- `GET /api/favicon?type=...` (src/app/api/favicon/route.ts): the `type`
query parameter defaults to `favicon.ico` via JS `||`; an unknown type is
404, a file-system read failure 500, a successful read 200 with the
configured MIME type. `fs` models `readFileSync` over the public directory. -/
def faviconRouteGET (fs : String → Except String String)
    (typeParam : Option String) : HttpResponse :=
  let t := jsOrStr typeParam "favicon.ico"
  match lookupFavicon t with
  | none => ⟨404, "Favicon type not found", "", ""⟩
  | some cfg =>
    match fs ("public" ++ cfg.path) with
    | .ok content =>
      ⟨200, content, cfg.mimeType, "public, max-age=31536000, immutable"⟩
    | .error _ => ⟨500, "Internal Server Error", "", ""⟩

/-- Claim C6 counterexample: the favicon lookup table has six entries, not
the eleven the claim states. -/
theorem faviconConfigs_has_six_entries :
    faviconConfigs.length = 6 ∧ faviconConfigs.length ≠ 11 := by
  constructor
  · rfl
  · decide

/-- Claim C6 (amended): the favicon route serves one fixed source image with
a MIME type keyed by the fixed six-entry lookup table; every type value
outside the table yields 404, a file read failure 500, and a successful read
200 with the configured MIME type. -/
theorem faviconRouteGET_spec (fs : String → Except String String)
    (typeParam : Option String) :
    (lookupFavicon (jsOrStr typeParam "favicon.ico") = none →
      faviconRouteGET fs typeParam =
        ⟨404, "Favicon type not found", "", ""⟩) ∧
    (∀ cfg, lookupFavicon (jsOrStr typeParam "favicon.ico") = some cfg →
      cfg.path = "/L22 W.png" ∧
      (∀ content, fs ("public" ++ cfg.path) = .ok content →
        faviconRouteGET fs typeParam =
          ⟨200, content, cfg.mimeType, "public, max-age=31536000, immutable"⟩) ∧
      (∀ e, fs ("public" ++ cfg.path) = .error e →
        faviconRouteGET fs typeParam = ⟨500, "Internal Server Error", "", ""⟩)) := by
  constructor
  · intro h
    simp [faviconRouteGET, h]
  · intro cfg hcfg
    refine ⟨?_, ?_, ?_⟩
    · have : ∀ p ∈ faviconConfigs, p.2.path = "/L22 W.png" := by decide
      rcases hmem : faviconConfigs.find? fun p =>
          p.1 == jsOrStr typeParam "favicon.ico" with _ | ⟨q⟩
      · rw [lookupFavicon, hmem] at hcfg
        simp at hcfg
      · rw [lookupFavicon, hmem] at hcfg
        simp at hcfg
        have hq := List.mem_of_find?_eq_some hmem
        rw [← hcfg]
        exact this q hq
    · intro content hok
      simp [faviconRouteGET, hcfg, hok]
    · intro e herr
      simp [faviconRouteGET, hcfg, herr]

/-- Witness for `faviconRouteGET_spec`: the three outcomes at concrete
inputs (unknown type 404, read failure 500, successful read 200). -/
theorem faviconRouteGET_spec_witness :
    faviconRouteGET (fun _ => .ok "bytes") (some "bogus.png") =
      ⟨404, "Favicon type not found", "", ""⟩ ∧
    faviconRouteGET (fun _ => .error "ENOENT") (some "favicon.ico") =
      ⟨500, "Internal Server Error", "", ""⟩ ∧
    faviconRouteGET (fun _ => .ok "bytes") none =
      ⟨200, "bytes", "image/x-icon", "public, max-age=31536000, immutable"⟩ := by
  refine ⟨?_, ?_, ?_⟩
  · exact (faviconRouteGET_spec (fun _ => .ok "bytes") (some "bogus.png")).1
      (by decide)
  · exact ((faviconRouteGET_spec (fun _ => .error "ENOENT")
      (some "favicon.ico")).2 ⟨"/L22 W.png", "image/x-icon", "32x32"⟩
      (by decide)).2.2 "ENOENT" rfl
  · exact ((faviconRouteGET_spec (fun _ => .ok "bytes") none).2
      ⟨"/L22 W.png", "image/x-icon", "32x32"⟩ (by decide)).2.1 "bytes" rfl

/-!
## Sitemap validation (src/lib/seo/sitemap-generator.ts, `validateSitemap`)
-/

/-- `{isValid, errors, warnings}` (src/lib/seo/types.ts). -/
structure ValidationResult where
  isValid : Bool
  errors : List String
  warnings : List String
  deriving Repr, DecidableEq

/-- Lazy completion of `/<loc>(.*?)<\/loc>/`: collect characters (none of
which may be a JS line terminator, since `.` excludes them) up to the first
`</loc>`; returns the content and the rest after the closing tag. -/
def grabLocContent : List Char → Option (List Char × List Char)
  | [] => none
  | c :: l =>
    if "</loc>".data.isPrefixOf (c :: l) then some ([], (c :: l).drop 6)
    else if c = Char.ofNat 10 || c = Char.ofNat 13 ||
        c.toNat = 0x2028 || c.toNat = 0x2029 then none
    else
      match grabLocContent l with
      | some (inner, rest) => some (c :: inner, rest)
      | none => none

/-- `xml.match(/<loc>(.*?)<\/loc>/g)`: left-to-right scan collecting full
`<loc>...</loc>` matches, resuming after each; fuelled by the input length. -/
def scanLocsAux (tokOpen tokClose : List Char) : Nat → List Char → List (List Char)
  | 0, _ => []
  | _, [] => []
  | f + 1, c :: l =>
    if tokOpen.isPrefixOf (c :: l) then
      match grabLocContent ((c :: l).drop 5) with
      | some (inner, rest) =>
        (tokOpen ++ inner ++ tokClose) :: scanLocsAux tokOpen tokClose f rest
      | none => scanLocsAux tokOpen tokClose f l
    else scanLocsAux tokOpen tokClose f l

/-- `match.replace(/<\/?loc>/g, '')`: delete every `<loc>`/`</loc>`. -/
def stripLocTags : Nat → List Char → List Char
  | 0, l => l
  | _, [] => []
  | f + 1, c :: l =>
    if "<loc>".data.isPrefixOf (c :: l) then stripLocTags f ((c :: l).drop 5)
    else if "</loc>".data.isPrefixOf (c :: l) then stripLocTags f ((c :: l).drop 6)
    else c :: stripLocTags f l

def sitemapReqErr : String := "Sitemap XML is required"

def sitemapDeclErr : String := "Sitemap must include XML declaration"

def sitemapNsErr : String := "Sitemap must include proper urlset namespace"

def sitemapUrlsetErr : String := "Sitemap must include urlset element"

def invalidUrlErrPre : String := "Invalid URL found in sitemap: "

def sitemapSizeErr : String := "Sitemap exceeds 50MB size limit"

def sitemapCountErr : String := "Sitemap exceeds 50,000 URL limit"

def sitemapNoUrlsWarn : String := "Sitemap contains no URL entries"

/-- `validateSitemap(xml)` (src/lib/seo/sitemap-generator.ts). `isUrl` models
the host `new URL` validity check of `isValidUrl`; everything else follows
the source: declaration/namespace/urlset checks, per-`<loc>` URL validation,
the 50 MB and 50,000-URL guards, and a warning for zero url entries. -/
def validateSitemap (isUrl : String → Bool) (xml : String) : ValidationResult :=
  if xml = "" then ⟨false, [sitemapReqErr], []⟩
  else
    let urlCount := countMatches "<url>".data xml.data
    let locMatches := scanLocsAux "<loc>".data "</loc>".data xml.data.length xml.data
    let urls := locMatches.map fun m => String.mk (stripLocTags m.length m)
    let errors :=
      (if hasTok "<?xml version=\"1.0\" encoding=\"UTF-8\"?>".data xml.data
        then [] else [sitemapDeclErr]) ++
      (if hasTok "xmlns=\"http://www.sitemaps.org/schemas/sitemap/0.9\"".data
          xml.data then [] else [sitemapNsErr]) ++
      (if hasTok "<urlset".data xml.data && hasTok "</urlset>".data xml.data
        then [] else [sitemapUrlsetErr]) ++
      ((urls.filter fun u => !isUrl u).map fun u => invalidUrlErrPre ++ u) ++
      (if 50 * 1024 * 1024 < xml.length then [sitemapSizeErr] else []) ++
      (if 50000 < urlCount then [sitemapCountErr] else [])
    let warnings := if urlCount = 0 then [sitemapNoUrlsWarn] else []
    ⟨errors.isEmpty, errors, warnings⟩

theorem mem_ite_nil_singleton (x y : String) (c : Prop) [Decidable c] :
    (x ∈ if c then ([] : List String) else [y]) ↔ ¬c ∧ x = y := by
  split <;> simp_all

theorem mem_ite_singleton_nil (x y : String) (c : Prop) [Decidable c] :
    (x ∈ if c then [y] else ([] : List String)) ↔ c ∧ x = y := by
  split <;> simp_all

theorem invalidUrlErrPre_ne_sizeErr (u : String) :
    invalidUrlErrPre ++ u ≠ sitemapSizeErr := by
  intro h
  have hd := congrArg String.data h
  rw [String.data_append,
    show invalidUrlErrPre.data = 'I' :: "nvalid URL found in sitemap: ".data from by decide,
    show sitemapSizeErr.data = 'S' :: "itemap exceeds 50MB size limit".data from by decide,
    List.cons_append] at hd
  injection hd with h1 _
  exact absurd h1 (by decide)

theorem invalidUrlErrPre_ne_countErr (u : String) :
    invalidUrlErrPre ++ u ≠ sitemapCountErr := by
  intro h
  have hd := congrArg String.data h
  rw [String.data_append,
    show invalidUrlErrPre.data = 'I' :: "nvalid URL found in sitemap: ".data from by decide,
    show sitemapCountErr.data = 'S' :: "itemap exceeds 50,000 URL limit".data from by decide,
    List.cons_append] at hd
  injection hd with h1 _
  exact absurd h1 (by decide)

/-- Claim C8: for every URL-validity oracle and every input string,
`validateSitemap` reports the 50 MB size violation as a validation error
exactly when the string exceeds 50 MB, reports the URL-count violation
exactly when the number of `<url>` entries exceeds 50,000, and `isValid` is
false whenever either limit is exceeded — never by throwing. -/
theorem validateSitemap_limits (isUrl : String → Bool) (xml : String) :
    (sitemapSizeErr ∈ (validateSitemap isUrl xml).errors ↔
      50 * 1024 * 1024 < xml.length) ∧
    (sitemapCountErr ∈ (validateSitemap isUrl xml).errors ↔
      50000 < countMatches "<url>".data xml.data) ∧
    (50 * 1024 * 1024 < xml.length ∨
        50000 < countMatches "<url>".data xml.data →
      (validateSitemap isUrl xml).isValid = false) := by
  have d1 : sitemapSizeErr ≠ sitemapDeclErr := by decide
  have d2 : sitemapSizeErr ≠ sitemapNsErr := by decide
  have d3 : sitemapSizeErr ≠ sitemapUrlsetErr := by decide
  have d4 : sitemapSizeErr ≠ sitemapCountErr := by decide
  have d5 : sitemapCountErr ≠ sitemapDeclErr := by decide
  have d6 : sitemapCountErr ≠ sitemapNsErr := by decide
  have d7 : sitemapCountErr ≠ sitemapUrlsetErr := by decide
  have d8 : sitemapCountErr ≠ sitemapSizeErr := by decide
  by_cases hx : xml = ""
  · subst hx
    refine ⟨?_, ?_, ?_⟩
    · simp [validateSitemap, show sitemapSizeErr ≠ sitemapReqErr from by decide,
        show ¬ (50 * 1024 * 1024 < ("" : String).length) from by decide]
    · simp [validateSitemap, show sitemapCountErr ≠ sitemapReqErr from by decide,
        show ¬ (50000 < countMatches "<url>".data ("" : String).data) from by decide]
    · intro h
      rcases h with h | h
      · exact absurd h (by decide)
      · exact absurd h (by decide)
  · have hmem1 : sitemapSizeErr ∈ (validateSitemap isUrl xml).errors ↔
        50 * 1024 * 1024 < xml.length := by
      simp [validateSitemap, hx, mem_ite_nil_singleton, mem_ite_singleton_nil,
        List.mem_filter, d1, d2, d3, d4, invalidUrlErrPre_ne_sizeErr]
    have hmem2 : sitemapCountErr ∈ (validateSitemap isUrl xml).errors ↔
        50000 < countMatches "<url>".data xml.data := by
      simp [validateSitemap, hx, mem_ite_nil_singleton, mem_ite_singleton_nil,
        List.mem_filter, d5, d6, d7, d8, invalidUrlErrPre_ne_countErr]
    refine ⟨hmem1, hmem2, ?_⟩
    intro h
    have hmem : sitemapSizeErr ∈ (validateSitemap isUrl xml).errors ∨
        sitemapCountErr ∈ (validateSitemap isUrl xml).errors := by
      rcases h with h | h
      · exact Or.inl (hmem1.mpr h)
      · exact Or.inr (hmem2.mpr h)
    have hval : (validateSitemap isUrl xml).isValid =
        (validateSitemap isUrl xml).errors.isEmpty := by
      simp [validateSitemap, hx]
    rw [hval]
    rcases hmem with hmem | hmem <;>
      [skip; skip] <;>
      · rw [← Bool.not_eq_true, List.isEmpty_iff]
        intro hnil
        rw [hnil] at hmem
        simp at hmem

/-- A string longer than 50 MB, used to trigger the size guard. -/
def oversizedSitemapXml : String := ⟨List.replicate 52428801 'a'⟩

/-- Witness for `validateSitemap_limits`: an input exceeding 50 MB yields the
size error and `isValid = false`. -/
theorem validateSitemap_limits_witness :
    sitemapSizeErr ∈ (validateSitemap (fun _ => true) oversizedSitemapXml).errors ∧
    (validateSitemap (fun _ => true) oversizedSitemapXml).isValid = false := by
  have hlen : 50 * 1024 * 1024 < oversizedSitemapXml.length := by
    show 50 * 1024 * 1024 < (String.mk (List.replicate 52428801 'a')).length
    have : (String.mk (List.replicate 52428801 'a')).length = 52428801 := by
      show (List.replicate 52428801 'a').length = 52428801
      rw [List.length_replicate]
    omega
  have h := validateSitemap_limits (fun _ => true) oversizedSitemapXml
  exact ⟨h.1.mpr hlen, h.2.2 (Or.inl hlen)⟩

/-!
## JSON-LD schema builder (src/unnamed part 001, `SchemaProcessor`) and the
global config it reads (src config module, `seoGlobalConfig`)
-/

def seoSiteName : String := "Lunar 22"

def seoSiteUrl : String := "https://lunar22.com"

def seoSiteDescription : String :=
  "Lunar 22 Media - Creative content production and entertainment"

def seoSiteLogo : String := "/L22 W.png"

def seoTwitterHandle : String := "@lunar22media"

/-- A JSON value. -/
inductive JVal where
  | str (s : String)
  | num (n : Int)
  | bool (b : Bool)
  | null
  | arr (xs : List JVal)
  | obj (fs : List (String × JVal))

/-- JSON string escaping for the characters that can appear here. -/
def jsonEscapeChar (c : Char) : List Char :=
  if c = Char.ofNat 34 then [Char.ofNat 92, Char.ofNat 34]
  else if c = Char.ofNat 92 then [Char.ofNat 92, Char.ofNat 92]
  else if c = Char.ofNat 10 then [Char.ofNat 92, 'n']
  else if c = Char.ofNat 13 then [Char.ofNat 92, 'r']
  else if c = Char.ofNat 9 then [Char.ofNat 92, 't']
  else [c]

def jsonQuote (s : String) : String :=
  ⟨Char.ofNat 34 :: (s.data.map jsonEscapeChar).flatten ++ [Char.ofNat 34]⟩

def joinComma : List String → String
  | [] => ""
  | [x] => x
  | x :: xs => x ++ "," ++ joinComma xs

/-- `JSON.stringify(v, null, 0)`: compact serialization, fuelled by nesting
depth (structural recursion for the kernel; the values here have depth 3). -/
def jsonStringifyF : Nat → JVal → String
  | 0, _ => ""
  | f + 1, v =>
    match v with
    | .str s => jsonQuote s
    | .num n => toString n
    | .bool true => "true"
    | .bool false => "false"
    | .null => "null"
    | .arr xs => "[" ++ joinComma (xs.map (jsonStringifyF f)) ++ "]"
    | .obj fs =>
      "\x7b" ++
        joinComma (fs.map fun p => jsonQuote p.1 ++ ":" ++ jsonStringifyF f p.2)
        ++ "\x7d"

def jsonStringify (v : JVal) : String :=
  jsonStringifyF 100 v

/-- `url.replace(/\/$/, '')`: strip one trailing slash. -/
def stripTrailingSlash (url : String) : String :=
  if url.data.getLast? = some '/' then ⟨url.data.dropLast⟩ else url

/-- `handle.replace('@', '')`: JS string-pattern replace removes only the
first occurrence. -/
def removeFirstChar (c : Char) : List Char → List Char
  | [] => []
  | d :: l => if d = c then l else d :: removeFirstChar c l

/-- JS `String.prototype.startsWith`, evaluated on the character lists. -/
def strStartsWith (p s : String) : Bool :=
  p.data.isPrefixOf s.data

/-- `SchemaProcessor.resolveImageUrl`: absolutize a relative image path
against the site base URL. -/
def resolveImageUrl (imageUrl : String) : String :=
  if strStartsWith "http://" imageUrl || strStartsWith "https://" imageUrl then
    imageUrl
  else
    stripTrailingSlash seoSiteUrl ++
      (if strStartsWith "/" imageUrl then imageUrl else "/" ++ imageUrl)

/-- `SchemaProcessor.generateSameAsLinks`: a Twitter profile URL from the
handle (leading `@` removed) when a handle is configured. -/
def generateSameAsLinks : List String :=
  if seoTwitterHandle ≠ "" then
    ["https://twitter.com/" ++ ⟨removeFirstChar '@' seoTwitterHandle.data⟩]
  else []

/-- `SchemaProcessor.generateOrganizationSchema()` as the JSON object it
serializes to: the base fields in insertion order, no contactPoint (the
source's `generateContactPoint` returns null), and `sameAs` appended when
non-empty. -/
def generateOrganizationSchemaJson : JVal :=
  let base : List (String × JVal) :=
    [("@context", .str "https://schema.org"),
     ("@type", .str "Organization"),
     ("name", .str seoSiteName),
     ("description", .str seoSiteDescription),
     ("url", .str seoSiteUrl),
     ("logo", .str (resolveImageUrl seoSiteLogo))]
  let sameAs := generateSameAsLinks
  .obj (if sameAs.isEmpty then base
    else base ++ [("sameAs", .arr (sameAs.map JVal.str))])

/-- `SchemaProcessor.renderJsonLd(schemas)`: empty string for an empty list,
direct serialization for a single schema, an array otherwise. -/
def renderJsonLd : List JVal → String
  | [] => ""
  | [s] => jsonStringify s
  | ss => jsonStringify (.arr ss)

/-- JSON whitespace skipping. -/
def jsonSkipWs (l : List Char) : List Char :=
  l.dropWhile fun c =>
    c = ' ' || c = Char.ofNat 9 || c = Char.ofNat 10 || c = Char.ofNat 13

/-- Parse the remainder of a JSON string after the opening quote, decoding
the basic escapes; returns the decoded characters and the rest. -/
def parseJsonString : List Char → Option (List Char × List Char)
  | [] => none
  | c :: l =>
    if c = Char.ofNat 34 then some ([], l)
    else if c = Char.ofNat 92 then
      match l with
      | [] => none
      | e :: l' =>
        let dec : Option Char :=
          if e = Char.ofNat 34 then some (Char.ofNat 34)
          else if e = Char.ofNat 92 then some (Char.ofNat 92)
          else if e = '/' then some '/'
          else if e = 'n' then some (Char.ofNat 10)
          else if e = 'r' then some (Char.ofNat 13)
          else if e = 't' then some (Char.ofNat 9)
          else none
        match dec with
        | some d => (parseJsonString l').map fun p => (d :: p.1, p.2)
        | none => none
    else (parseJsonString l).map fun p => (c :: p.1, p.2)

/-- Parse an optionally signed integer literal. -/
def parseJsonNum (l : List Char) : Option (Int × List Char) :=
  let (neg, l') : Bool × List Char :=
    match l with
    | '-' :: r => (true, r)
    | _ => (false, l)
  let digits := l'.takeWhile fun c => '0' ≤ c && c ≤ '9'
  let rest := l'.dropWhile fun c => '0' ≤ c && c ≤ '9'
  if digits.isEmpty then none
  else
    let n : Nat := digits.foldl (fun acc c => acc * 10 + (c.toNat - 48)) 0
    some (if neg then -(n : Int) else (n : Int), rest)

mutual

/-- Recursive-descent JSON value parser, fuelled for structural recursion. -/
def parseJsonVal : Nat → List Char → Option (JVal × List Char)
  | 0, _ => none
  | f + 1, l =>
    match jsonSkipWs l with
    | [] => none
    | c :: rest =>
      if c = Char.ofNat 34 then
        (parseJsonString rest).map fun p => (.str ⟨p.1⟩, p.2)
      else if c = '[' then
        match jsonSkipWs rest with
        | ']' :: r => some (.arr [], r)
        | _ => (parseJsonElems f rest).map fun p => (.arr p.1, p.2)
      else if c = Char.ofNat 123 then
        match jsonSkipWs rest with
        | c2 :: r =>
          if c2 = Char.ofNat 125 then some (.obj [], r)
          else (parseJsonFields f rest).map fun p => (.obj p.1, p.2)
        | [] => none
      else if "true".data.isPrefixOf (c :: rest) then
        some (.bool true, (c :: rest).drop 4)
      else if "false".data.isPrefixOf (c :: rest) then
        some (.bool false, (c :: rest).drop 5)
      else if "null".data.isPrefixOf (c :: rest) then
        some (.null, (c :: rest).drop 4)
      else
        (parseJsonNum (c :: rest)).map fun p => (.num p.1, p.2)

/-- Parse one-or-more comma-separated array elements and the closing `]`. -/
def parseJsonElems : Nat → List Char → Option (List JVal × List Char)
  | 0, _ => none
  | f + 1, l =>
    match parseJsonVal f l with
    | none => none
    | some (v, rest) =>
      match jsonSkipWs rest with
      | ',' :: r => (parseJsonElems f r).map fun p => (v :: p.1, p.2)
      | ']' :: r => some ([v], r)
      | _ => none

/-- Parse one-or-more comma-separated object fields and the closing brace. -/
def parseJsonFields : Nat → List Char → Option (List (String × JVal) × List Char)
  | 0, _ => none
  | f + 1, l =>
    match jsonSkipWs l with
    | c :: rest =>
      if c = Char.ofNat 34 then
        match parseJsonString rest with
        | none => none
        | some (k, r1) =>
          match jsonSkipWs r1 with
          | ':' :: r2 =>
            match parseJsonVal f r2 with
            | none => none
            | some (v, r3) =>
              match jsonSkipWs r3 with
              | ',' :: r4 =>
                (parseJsonFields f r4).map fun p => ((⟨k⟩, v) :: p.1, p.2)
              | c5 :: r5 =>
                if c5 = Char.ofNat 125 then some ([(⟨k⟩, v)], r5) else none
              | [] => none
          | _ => none
      else none
    | [] => none

end

/-- `JSON.parse`, accepting exactly one JSON value plus trailing whitespace. -/
def parseJson (s : String) : Option JVal :=
  match parseJsonVal (s.length + 1) s.data with
  | some (v, rest) => if (jsonSkipWs rest).isEmpty then some v else none
  | none => none

/-- Field access on a parsed JSON object. -/
def jObjField (v : Option JVal) (k : String) : Option JVal :=
  match v with
  | some (.obj fs) => (fs.find? fun p => p.1 == k).map Prod.snd
  | _ => none

/-- Extract a JSON string value. -/
def jAsString : Option JVal → Option String
  | some (.str s) => some s
  | _ => none

/-- Claim C9: parsing `renderJsonLd([generateOrganizationSchema()])` as JSON
succeeds and yields an object with `"@type": "Organization"` whose required
fields name, description, url and logo are all present, the logo resolved to
an absolute URL under the site base URL. -/
theorem organizationSchema_roundtrip :
    (parseJson (renderJsonLd [generateOrganizationSchemaJson])).isSome = true ∧
    jAsString (jObjField (parseJson (renderJsonLd [generateOrganizationSchemaJson])) "@type")
      = some "Organization" ∧
    jAsString (jObjField (parseJson (renderJsonLd [generateOrganizationSchemaJson])) "name")
      = some seoSiteName ∧
    jAsString (jObjField (parseJson (renderJsonLd [generateOrganizationSchemaJson])) "description")
      = some seoSiteDescription ∧
    jAsString (jObjField (parseJson (renderJsonLd [generateOrganizationSchemaJson])) "url")
      = some seoSiteUrl ∧
    jAsString (jObjField (parseJson (renderJsonLd [generateOrganizationSchemaJson])) "logo")
      = some "https://lunar22.com/L22 W.png" ∧
    strStartsWith seoSiteUrl "https://lunar22.com/L22 W.png" = true := by
  refine ⟨?_, ?_, ?_, ?_, ?_, ?_, ?_⟩ <;> decide

/-!
## Metadata validation (src/lib/seo/utils.ts, `validateMetadata` /
`validateImageUrl`) and page-config validation
(src/lib/seo/config-validator.ts, `validatePageConfig`)
-/

/-- ASCII `toLowerCase`. -/
def toLowerAscii (c : Char) : Char :=
  if 'A' ≤ c && c ≤ 'Z' then Char.ofNat (c.toNat + 32) else c

/-- `validateImageUrl(imageUrl)` (src/lib/seo/utils.ts); `isUrl` models the
host `new URL` check. -/
def validateImageUrl (isUrl : String → Bool) (imageUrl : String) :
    ValidationResult :=
  if imageUrl = "" then ⟨false, ["Image URL is required"], []⟩
  else
    let isAbsolute :=
      strStartsWith "http://" imageUrl || strStartsWith "https://" imageUrl
    let isRelative := strStartsWith "/" imageUrl
    let errors :=
      (if !isAbsolute && !isRelative then
        ["Image URL must be absolute (https://) or relative (/)"] else []) ++
      (if isAbsolute && !isUrl imageUrl then
        ["Invalid absolute URL format"] else [])
    let hasImageExtension :=
      [".jpg", ".jpeg", ".png", ".webp", ".avif", ".svg"].any fun ext =>
        hasTok ext.data (imageUrl.data.map toLowerAscii)
    let warnings :=
      if !hasImageExtension then
        ["Image URL should have a valid image extension"] else []
    ⟨errors.isEmpty, errors, warnings⟩

/-- `validateMetadata(metadata)` (src/lib/seo/utils.ts): required fields,
length warnings, canonical URL check, and the Open Graph / Twitter Card
blocks with their nested image validations. -/
def validateMetadata (isUrl : String → Bool) (m : MetadataConfig) :
    ValidationResult :=
  let titleErrs := if m.title = "" then ["Title is required"] else []
  let titleWarns :=
    if m.title ≠ "" ∧ 60 < m.title.length then
      ["Title should be under 60 characters for optimal SEO"] else []
  let descErrs := if m.description = "" then ["Description is required"] else []
  let descWarns :=
    if m.description ≠ "" ∧ 160 < m.description.length then
      ["Description should be under 160 characters for optimal SEO"] else []
  let canonicalErrs :=
    match m.canonical with
    | some c =>
      if c ≠ "" ∧ isUrl c = false then
        ["Canonical URL must be a valid absolute URL"] else []
    | none => []
  let ogResult : List String × List String :=
    match m.openGraph with
    | none => ([], [])
    | some og =>
      let imgRes :=
        match og.image with
        | none => (["Open Graph image is required"], [])
        | some s =>
          if s = "" then (["Open Graph image is required"], [])
          else
            let r := validateImageUrl isUrl s
            (r.errors, r.warnings)
      ((if strTruthy og.title = false then ["Open Graph title is required"] else []) ++
       (if strTruthy og.description = false then
         ["Open Graph description is required"] else []) ++
       imgRes.1 ++
       (if strTruthy og.siteName = false then
         ["Open Graph site name is required"] else []) ++
       (if og.type = some "website" ∨ og.type = some "article" then []
        else ["Open Graph type must be \"website\" or \"article\""]),
       imgRes.2)
  let twResult : List String × List String :=
    match m.twitter with
    | none => ([], [])
    | some tw =>
      let imgRes :=
        match tw.image with
        | none => (["Twitter Card image is required"], [])
        | some s =>
          if s = "" then (["Twitter Card image is required"], [])
          else
            let r := validateImageUrl isUrl s
            (r.errors, r.warnings)
      ((if strTruthy tw.title = false then ["Twitter Card title is required"] else []) ++
       (if strTruthy tw.description = false then
         ["Twitter Card description is required"] else []) ++
       imgRes.1 ++
       (if tw.card = some "summary" ∨ tw.card = some "summary_large_image" then []
        else ["Twitter Card type must be \"summary\" or \"summary_large_image\""]),
       imgRes.2)
  let errors :=
    titleErrs ++ descErrs ++ canonicalErrs ++ ogResult.1 ++ twResult.1
  let warnings := titleWarns ++ descWarns ++ ogResult.2 ++ twResult.2
  ⟨errors.isEmpty, errors, warnings⟩

/-- `SchemaConfig` of a page (src/lib/seo/types.ts). -/
structure SchemaConfig where
  type : Option String
  deriving Repr, DecidableEq

/-- `PerformanceConfig` of a page (src/lib/seo/types.ts). -/
structure PerformanceConfig where
  preload : Option (List String)
  prefetch : Option (List String)
  critical : Option Bool
  deriving Repr, DecidableEq

/-- Per-page sitemap hints (src/lib/seo/types.ts, `SitemapConfig`). -/
structure PageSitemapConfig where
  changefreq : Option String
  priority : Option ℚ

/-- `PageSEOConfig` (src/lib/seo/types.ts). -/
structure PageSEOConfig where
  metadata : MetadataConfig
  schema : Option SchemaConfig
  performance : Option PerformanceConfig
  sitemap : Option PageSitemapConfig

/-- `SEOConfigValidator.validateMetadataConfig`
(src/lib/seo/config-validator.ts). -/
def validateMetadataConfig (isUrl : String → Bool) (m : MetadataConfig) :
    ValidationResult :=
  let titleRes : List String × List String :=
    if m.title = "" ∨ jsTrimList m.title.data = [] then (["Title is required"], [])
    else
      ([],
       (if 60 < m.title.length then
         ["Title is " ++ toString m.title.length ++
           " characters, consider keeping under 60"] else []) ++
       (if m.title.length < 10 then
         ["Title is very short, consider making it more descriptive"] else []))
  let descRes : List String × List String :=
    if m.description = "" ∨ jsTrimList m.description.data = [] then
      (["Description is required"], [])
    else
      ([],
       (if 160 < m.description.length then
         ["Description is " ++ toString m.description.length ++
           " characters, consider keeping under 160"] else []) ++
       (if m.description.length < 50 then
         ["Description is short, consider making it more descriptive"] else []))
  let ogRes : List String × List String :=
    match m.openGraph with
    | none =>
      ([], ["Open Graph metadata is missing, recommended for social sharing"])
    | some og =>
      ((if strTruthy og.title = false then ["Open Graph title is required"] else []) ++
       (if strTruthy og.description = false then
         ["Open Graph description is required"] else []) ++
       (if strTruthy og.image = false then ["Open Graph image is required"] else []) ++
       (if strTruthy og.siteName = false then
         ["Open Graph site name is required"] else []) ++
       (match og.image with
        | some img =>
          if img ≠ "" ∧ isUrl img = false ∧ strStartsWith "/" img = false then
            ["Open Graph image must be a valid URL or absolute path"] else []
        | none => []),
       match og.type with
       | some t =>
         if t ≠ "" ∧
             ¬ (t = "website" ∨ t = "article" ∨ t = "video" ∨ t = "music") then
           ["Open Graph type \"" ++ t ++ "\" is not commonly supported"] else []
       | none => [])
  let twRes : List String × List String :=
    match m.twitter with
    | none =>
      ([], ["Twitter Card metadata is missing, recommended for social sharing"])
    | some tw =>
      ((if strTruthy tw.card = false then ["Twitter card type is required"] else []) ++
       (if strTruthy tw.title = false then ["Twitter title is required"] else []) ++
       (if strTruthy tw.description = false then
         ["Twitter description is required"] else []) ++
       (if strTruthy tw.image = false then ["Twitter image is required"] else []) ++
       (match tw.card with
        | some c =>
          if c ≠ "" ∧ ¬ (c = "summary" ∨ c = "summary_large_image" ∨
              c = "app" ∨ c = "player") then
            ["Invalid Twitter card type: " ++ c] else []
        | none => []) ++
       (match tw.image with
        | some img =>
          if img ≠ "" ∧ isUrl img = false ∧ strStartsWith "/" img = false then
            ["Twitter image must be a valid URL or absolute path"] else []
        | none => []),
       match tw.site with
       | some s =>
         if s ≠ "" ∧ strStartsWith "@" s = false then
           ["Twitter site handle should start with @"] else []
       | none => [])
  let robotsRes : List String × List String :=
    match m.robots with
    | none => ([], [])
    | some r =>
      ([],
       if r.index = some false ∧ r.follow = some false then
         ["Page is set to noindex,nofollow - ensure this is intentional"]
       else [])
  let errors := titleRes.1 ++ descRes.1 ++ ogRes.1 ++ twRes.1 ++ robotsRes.1
  let warnings := titleRes.2 ++ descRes.2 ++ ogRes.2 ++ twRes.2 ++ robotsRes.2
  ⟨errors.isEmpty, errors, warnings⟩

/-- `SEOConfigValidator.validateSchemaConfig`. -/
def validateSchemaConfig (s : SchemaConfig) : ValidationResult :=
  match s.type with
  | none => ⟨false, ["Schema type is required"], []⟩
  | some t =>
    if t = "" then ⟨false, ["Schema type is required"], []⟩
    else if ¬ (t = "organization" ∨ t = "creativework" ∨ t = "webpage" ∨
        t = "article") then
      ⟨true, [], ["Schema type \"" ++ t ++ "\" may not be optimal for SEO"]⟩
    else ⟨true, [], []⟩

/-- `SEOConfigValidator.validatePerformanceConfig`. -/
def validatePerformanceConfig (p : PerformanceConfig) : ValidationResult :=
  let warnings :=
    (match p.preload with
     | some l =>
       if 10 < l.length then
         ["Too many preload resources may impact performance"] else []
     | none => []) ++
    (match p.prefetch with
     | some l =>
       if 20 < l.length then
         ["Too many prefetch resources may impact performance"] else []
     | none => [])
  ⟨true, [], warnings⟩

/-- `SEOConfigValidator.validateSitemapConfig`. -/
def validateSitemapConfig (s : PageSitemapConfig) : ValidationResult :=
  let errors :=
    (match s.priority with
     | some p =>
       if p ≠ 0 ∧ (p < 0 ∨ 1 < p) then
         ["Sitemap priority must be between 0 and 1"] else []
     | none => []) ++
    (match s.changefreq with
     | some c =>
       if c ≠ "" ∧ ¬ (c = "always" ∨ c = "hourly" ∨ c = "daily" ∨
           c = "weekly" ∨ c = "monthly" ∨ c = "yearly" ∨ c = "never") then
         ["Invalid changefreq value: " ++ c] else []
     | none => [])
  ⟨errors.isEmpty, errors, []⟩

/-- `SEOConfigValidator.validatePageConfig`
(src/lib/seo/config-validator.ts): union of the metadata validation and the
optional schema/performance/sitemap validations. -/
def validatePageConfig (isUrl : String → Bool) (c : PageSEOConfig) :
    ValidationResult :=
  let mdRes := validateMetadataConfig isUrl c.metadata
  let schemaRes :=
    match c.schema with
    | some s => validateSchemaConfig s
    | none => ⟨true, [], []⟩
  let perfRes :=
    match c.performance with
    | some p => validatePerformanceConfig p
    | none => ⟨true, [], []⟩
  let smRes :=
    match c.sitemap with
    | some s => validateSitemapConfig s
    | none => ⟨true, [], []⟩
  let errors := mdRes.errors ++ schemaRes.errors ++ perfRes.errors ++ smRes.errors
  let warnings :=
    mdRes.warnings ++ schemaRes.warnings ++ perfRes.warnings ++ smRes.warnings
  ⟨errors.isEmpty, errors, warnings⟩

/-- Claim C10: every `ValidationResult` produced by the pipeline validators
(`validateMetadata`, `validateSitemap`, `validateContactForm`,
`validatePageConfig`) satisfies `isValid = errors.isEmpty`; warnings never
influence `isValid`, and the results are returned as data from total
functions. -/
theorem validators_isValid_iff_no_errors (isUrl : String → Bool)
    (m : MetadataConfig) (xml : String) (d : ContactForm) (pc : PageSEOConfig) :
    (validateMetadata isUrl m).isValid =
      (validateMetadata isUrl m).errors.isEmpty ∧
    (validateSitemap isUrl xml).isValid =
      (validateSitemap isUrl xml).errors.isEmpty ∧
    (validateContactForm d).isValid =
      (validateContactForm d).errors.isEmpty ∧
    (validatePageConfig isUrl pc).isValid =
      (validatePageConfig isUrl pc).errors.isEmpty := by
  refine ⟨rfl, ?_, rfl, rfl⟩
  by_cases h : xml = "" <;> simp [validateSitemap, h]

end Lunar22
